import Mathlib

/-!
Verification development for the House Money transaction ingestion and
deduplication pipeline (sources: file_import.py and database.py).

The embedding models the pipeline over explicit state passing:

- an upload's payload is represented by its decoded text (the data-URL
  base64 transport layer of calculate_file_hash / parse_contents, which
  splits on the comma and base64-decodes, is a bijection on valid payloads
  and is elided; the SHA-256 digest is abstracted as a deterministic
  function parameter, since none of the properties below depend on the
  internals of the digest, only on its determinism);
- the sqlite database is a record of lists (tables); every statement of a
  function body either commits before returning, or rolls back when the
  connection is closed without commit on an error path, exactly as the
  source does;
- the polars dataframes are lists of typed rows; polars casts use
  strict=True semantics (the library default, and what the source calls):
  a failed conversion of a non-null value raises, while null values pass
  through casts unchanged;
- pl.Decimal values are scaled integers (mantissa, scale), not floats;
- the module-global TTL cache of database.py is a list of keyed entries
  with their population timestamps; the two parallel dicts _cache and
  _cache_timestamps of the source are always mutated together under the
  same lock, so they are modelled as one association list.
-/

namespace HouseMoney

/-! ## Character and string helpers

Executable replacements for the Python string operations used by the
source, defined over the character list underlying a string so that all
concrete evaluation stays kernel-friendly. -/

/-- Whitespace test matching Python str.strip's default set for the
characters that can occur in a CSV cell. -/
def isSpaceChar (c : Char) : Bool :=
  c = ' ' || c = '\t' || c = '\n' || c = '\r'

/-- Splits a character list on a separator character; mirrors Python's
str.split(sep), in particular it yields one (possibly empty) group per
separator occurrence plus one. -/
def splitOnChar (sep : Char) : List Char → List (List Char)
  | [] => [[]]
  | c :: cs =>
    let r := splitOnChar sep cs
    if c = sep then [] :: r
    else
      match r with
      | [] => [[c]]
      | g :: gs => (c :: g) :: gs

/-- Python str.strip(): drop leading and trailing whitespace. -/
def trimChars (l : List Char) : List Char :=
  ((l.dropWhile isSpaceChar).reverse.dropWhile isSpaceChar).reverse

/-- Python str.strip() on strings. -/
def pyStrip (s : String) : String := ⟨trimChars s.data⟩

/-- Python s.split(sep) for a one-character separator. -/
def pySplit (s : String) (sep : Char) : List String :=
  (splitOnChar sep s.data).map String.mk

/-- Python s.startswith(p). -/
def strStartsWith (s p : String) : Bool :=
  p.data.isPrefixOf s.data

/-- Python sep.join(parts). -/
def joinWith (sep : String) : List String → String
  | [] => ""
  | [x] => x
  | x :: y :: xs => x ++ sep ++ joinWith sep (y :: xs)

/-- ASCII lower-casing of one character (str.lower on the inputs the
source passes: sort-column identifiers and search text). -/
def asciiLower (c : Char) : Char :=
  if 'A' ≤ c && c ≤ 'Z' then Char.ofNat (c.toNat + 32) else c

/-- str.lower(). -/
def lowerStr (s : String) : String := ⟨s.data.map asciiLower⟩

/-- Strict lexicographic order on character lists (SQLite text ordering
for the ASCII data handled here). -/
def listLtChars : List Char → List Char → Bool
  | [], [] => false
  | [], _ :: _ => true
  | _ :: _, [] => false
  | a :: as, b :: bs => if a = b then listLtChars as bs else decide (a < b)

/-- Non-strict text order used to model ORDER BY on text columns. -/
def strLeB (a b : String) : Bool := !(listLtChars b.data a.data)

/-- Infix containment of a pattern in a list, used to model SQL
LIKE with wildcards on both sides. -/
def listContainsSub (pat : List Char) : List Char → Bool
  | [] => pat.isEmpty
  | x :: xs => pat.isPrefixOf (x :: xs) || listContainsSub pat xs

/-- SQLite LIKE '%pat%' (case-insensitive for ASCII, as SQLite's LIKE is). -/
def likeMatches (s pat : String) : Bool :=
  listContainsSub (lowerStr pat).data (lowerStr s).data

/-- Duplicate-freedom of a string list, used for the column-name checks
polars performs on read and rename. -/
def listNodupStr : List String → Bool
  | [] => true
  | x :: xs => !(xs.contains x) && listNodupStr xs

/-! ## Numbers, decimals, datetimes -/

/-- Value of a decimal digit character. -/
def digitVal (c : Char) : Option Nat :=
  if '0' ≤ c && c ≤ '9' then some (c.toNat - '0'.toNat) else none

/-- Accumulating decimal-digit parser. -/
def parseNatAux : List Char → Nat → Option Nat
  | [], acc => some acc
  | c :: cs, acc =>
    match digitVal c with
    | some d => parseNatAux cs (acc * 10 + d)
    | none => none

/-- Parses a non-empty all-digit character list. -/
def parseNatChars : List Char → Option Nat
  | [] => none
  | c :: cs => parseNatAux (c :: cs) 0

/-- A pl.Decimal value: an integer mantissa at a decimal scale, denoting
mant / 10 ^ scale. Representations are not normalised (polars keeps the
scale of the source text); none of the claims compares decimals across
scales except through decLe. -/
structure Dec where
  mant : Int
  scale : Nat
deriving DecidableEq

/-- Numeric order on decimals (cross-multiplied). -/
def Dec.decLe (a b : Dec) : Bool :=
  decide (a.mant * (10 : Int) ^ b.scale ≤ b.mant * (10 : Int) ^ a.scale)

/-- Renders a decimal back to text, used only to model SQLite's implicit
numeric-to-text coercion under LIKE. -/
def Dec.render (a : Dec) : String :=
  toString a.mant ++ (if a.scale = 0 then "" else "e-" ++ toString a.scale)

/-- Parses the textual decimal formats accepted by the pl.Decimal cast:
an optional sign, digits, optionally a point and fraction digits.
Anything else (for instance "abc") fails. -/
def parseDecimal (s : String) : Option Dec :=
  let (sign, body) :=
    match s.data with
    | '-' :: rest => ((-1 : Int), rest)
    | '+' :: rest => ((1 : Int), rest)
    | cs => ((1 : Int), cs)
  match splitOnChar '.' body with
  | [ip] => (parseNatChars ip).map (fun n => ⟨sign * n, 0⟩)
  | [ip, fp] =>
    if ip.isEmpty && fp.isEmpty then none
    else
      match (if ip.isEmpty then some 0 else parseNatChars ip),
            (if fp.isEmpty then some 0 else parseNatChars fp) with
      | some i, some f => some ⟨sign * (i * 10 ^ fp.length + f), fp.length⟩
      | _, _ => none
  | _ => none

/-- A parsed timestamp (pl.Datetime value). -/
structure Dt where
  year : Nat
  month : Nat
  day : Nat
  hour : Nat
  minute : Nat
  second : Nat
deriving DecidableEq

/-- Parses "YYYY-MM-DD". -/
def parseDatePart (cs : List Char) : Option (Nat × Nat × Nat) :=
  match splitOnChar '-' cs with
  | [y, m, d] =>
    match parseNatChars y, parseNatChars m, parseNatChars d with
    | some yn, some mn, some dn =>
      if 1 ≤ mn && mn ≤ 12 && 1 ≤ dn && dn ≤ 31 then some (yn, mn, dn) else none
    | _, _, _ => none
  | _ => none

/-- Parses "HH:MM:SS". -/
def parseTimePart (cs : List Char) : Option (Nat × Nat × Nat) :=
  match splitOnChar ':' cs with
  | [h, m, s] =>
    match parseNatChars h, parseNatChars m, parseNatChars s with
    | some hn, some mn, some sn =>
      if hn ≤ 23 && mn ≤ 59 && sn ≤ 59 then some (hn, mn, sn) else none
    | _, _, _ => none
  | _ => none

/-- The ISO datetime formats the strict pl.Datetime cast accepts for the
data this pipeline sees: a date, optionally followed by a time. -/
def parseDt (s : String) : Option Dt :=
  match splitOnChar ' ' s.data with
  | [d] => (parseDatePart d).map (fun p => ⟨p.1, p.2.1, p.2.2, 0, 0, 0⟩)
  | [d, t] =>
    match parseDatePart d, parseTimePart t with
    | some p, some q => some ⟨p.1, p.2.1, p.2.2, q.1, q.2.1, q.2.2⟩
    | _, _ => none
  | _ => none

/-! ## CSV reading (pl.read_csv, file_import.py line 20)

A cell read from CSV is None when the field is empty (polars' default
null_values behaviour) and the field text otherwise. -/

/-- A raw CSV cell: None for an empty field. -/
def parseCell (cs : List Char) : Option String :=
  if cs.isEmpty then none else some ⟨cs⟩

/-- A parsed CSV table: a header row of column names and data rows of
optional cells, each row as wide as the header. -/
structure Csv where
  header : List String
  rows : List (List (Option String))
deriving DecidableEq

/-- Models pl.read_csv on the decoded text (file_import.py line 20): the
first line is the header; every data row must have the header's width;
duplicate or missing structure raises, which the caller's except turns
into an error message. Quoting is not modelled: no input this repository
handles contains quoted fields. -/
def read_csv (s : String) : Except String Csv :=
  let ls0 := splitOnChar '\n' s.data
  let ls := if ls0.getLast? = some [] then ls0.dropLast else ls0
  match ls with
  | [] => .error "NoDataError: empty CSV"
  | h :: rs =>
    let header := (splitOnChar ',' h).map String.mk
    let rows := rs.map (fun r => (splitOnChar ',' r).map parseCell)
    if rows.all (fun r => r.length = header.length) then
      if listNodupStr header then .ok ⟨header, rows⟩
      else .error "DuplicateError: duplicate column names"
    else .error "ComputeError: found more fields than defined"

/-! ## Format mapping (file_import.py lines 24-43) -/

/-- The closed format set of the import UI. -/
inductive FormatType
  | standard
  | bank
  | custom
deriving DecidableEq

/-- The custom column-name triple built by process_uploaded_files
(lines 92-97); each field is the raw caller argument, None when the
caller left it unset. -/
structure CustomCols where
  date : Option String
  description : Option String
  amount : Option String
deriving DecidableEq

/-- A resolved column mapping from canonical field to source column name.
Fields are Options because the source's custom dict can carry None
values straight from unset caller arguments. -/
structure Mapping where
  date : Option String
  description : Option String
  amount : Option String
deriving DecidableEq

/-- format_mappings['standard'] (lines 25-29). -/
def standardMapping : Mapping := ⟨some "Date", some "Description", some "Amount"⟩

/-- format_mappings['bank'] (lines 30-34). -/
def bankMapping : Mapping := ⟨some "Transaction Date", some "Details", some "Transaction Amount"⟩

/-- mapping = format_mappings[format_type] (lines 24-43). For 'custom'
the source computes "custom_columns or standard-dict": the whole standard
dict is used only when custom_columns is falsy (None); a truthy custom
dict is used as-is, None-valued fields included. -/
def resolveMapping : FormatType → Option CustomCols → Mapping
  | .standard, _ => standardMapping
  | .bank, _ => bankMapping
  | .custom, none => standardMapping
  | .custom, some c => ⟨c.date, c.description, c.amount⟩

/-- mapping.values() in the source's dict insertion order. -/
def mappingValues (m : Mapping) : List (Option String) :=
  [m.date, m.description, m.amount]

/-! ## Row normalisation (file_import.py lines 46-80) -/

/-- A normalised transaction row of the dataframe parse_contents
returns: Date cast to datetime (still nullable), Description text,
Amount a decimal (non-null rows only survive the filter on line 75),
Tags free text (the empty string when the column was synthesized). -/
structure TxRow where
  date : Option Dt
  description : Option String
  amount : Dec
  tags : Option String
deriving DecidableEq

/-- df.rename on the header (lines 53-57): each source column named in
the mapping becomes its canonical name; other columns pass through. -/
def renameHeader (m : Mapping) (header : List String) : List String :=
  header.map (fun c =>
    if some c = m.date then "Date"
    else if some c = m.description then "Description"
    else if some c = m.amount then "Amount"
    else c)

/-- Message of the strict pl.Datetime cast failure (line 61), as wrapped
by the except on lines 81-83. -/
def dateCastError (filename : String) : String :=
  "Error processing " ++ filename ++ ": InvalidOperationError: conversion from str to datetime failed"

/-- Message of the strict pl.Decimal cast failure (line 70), as wrapped
by the except on lines 81-83. -/
def amountCastError (filename : String) : String :=
  "Error processing " ++ filename ++ ": InvalidOperationError: conversion from str to decimal failed"

/-- Message of the TypeError raised by ', '.join on line 50 when a
missing "column" is the None of an unset custom field, as wrapped by the
except on lines 81-83. -/
def joinNoneError (filename : String) : String :=
  "Error processing " ++ filename ++ ": TypeError: sequence item 0: expected str instance, NoneType found"

/-- Message of the duplicate-column failure df.rename raises when a
rename collides with an existing column, wrapped by the except. -/
def renameDupError (filename : String) : String :=
  "Error processing " ++ filename ++ ": DuplicateError: duplicate column names after rename"

/-- Strict cast of one Date cell (line 61): null passes through, text
must parse as a datetime or the whole-column cast raises. -/
def castDateCell (filename : String) : Option String → Except String (Option Dt)
  | none => .ok none
  | some s =>
    match parseDt s with
    | some dt => .ok (some dt)
    | none => .error (dateCastError filename)

/-- Strict cast of one Amount cell (line 70): null passes through, text
must parse as a decimal or the whole-column cast raises. -/
def castAmountCell (filename : String) : Option String → Except String (Option Dec)
  | none => .ok none
  | some s =>
    match parseDecimal s with
    | some d => .ok (some d)
    | none => .error (amountCastError filename)

/-- Column-wise traversal collecting the first raised cast error, the
effect of a strict polars cast over a column. -/
def colMapM (f : Option String → Except String α) : List (Option String) → Except String (List α)
  | [] => .ok []
  | c :: cs =>
    match f c with
    | .error e => .error e
    | .ok v =>
      match colMapM f cs with
      | .error e => .error e
      | .ok vs => .ok (v :: vs)

/-- Reads the cell of a row at an optional column index. -/
def getCell (row : List (Option String)) : Option Nat → Option String
  | some k => row.getD k none
  | none => none

/-- Zips the four cast columns back into rows while dropping every row
whose Amount is null: the filter on line 75 fused with the row
reassembly. Rows surviving the filter carry a genuine decimal. -/
def assembleRows : List (Option Dt × Option Dec × Option String × Option String) → List TxRow
  | [] => []
  | (d, some a, desc, t) :: rest => ⟨d, desc, a, t⟩ :: assembleRows rest
  | (_, none, _, _) :: rest => assembleRows rest

/-- The mapped "columns" absent from the CSV header (line 48's list
comprehension, including the membership test of line 47): a None mapped
value is never a header column, so it is always missing. -/
def missingColumns (csv : Csv) (m : Mapping) : List (Option String) :=
  (mappingValues m).filter (fun v =>
    match v with
    | some c => !(csv.header.contains c)
    | none => true)

/-- The body of parse_contents after read_csv (lines 23-80): resolve the
mapping, check mapped columns, rename, cast Date strictly, synthesize
Tags when absent, cast Amount strictly, drop null-amount rows. -/
def normalize (csv : Csv) (filename : String) (format_type : FormatType)
    (custom_columns : Option CustomCols) : Except String (List TxRow) :=
  let mapping := resolveMapping format_type custom_columns
  let missing := missingColumns csv mapping
  if missing.isEmpty then
    let header := renameHeader mapping csv.header
    if listNodupStr header then
      let dIdx := header.findIdx? (· = "Date")
      let descIdx := header.findIdx? (· = "Description")
      let aIdx := header.findIdx? (· = "Amount")
      let tIdx := header.findIdx? (· = "Tags")
      match colMapM (castDateCell filename) (csv.rows.map (fun r => getCell r dIdx)) with
      | .error e => .error e
      | .ok dts =>
        let tagsCol := csv.rows.map (fun r =>
          match tIdx with
          | some k => r.getD k none
          | none => some "")
        match colMapM (castAmountCell filename) (csv.rows.map (fun r => getCell r aIdx)) with
        | .error e => .error e
        | .ok amts =>
          let descs := csv.rows.map (fun r => getCell r descIdx)
          .ok (assembleRows (dts.zip (amts.zip (descs.zip tagsCol))))
    else .error (renameDupError filename)
  else
    if missing.all (fun v => v.isSome) then
      .error ("CSV is missing required columns: " ++ joinWith ", " (missing.filterMap id))
    else .error (joinNoneError filename)

/-- parse_contents (file_import.py lines 14-83) on the decoded text:
read the CSV, then normalise; any exception of the body is returned as
an error message prefixed as on line 83. -/
def parse_contents (decoded : String) (filename : String) (format_type : FormatType)
    (custom_columns : Option CustomCols) : Except String (List TxRow) :=
  match read_csv decoded with
  | .error e => .error ("Error processing " ++ filename ++ ": " ++ e)
  | .ok csv => normalize csv filename format_type custom_columns

/-! ## Database state (database.py, schema from init_db lines 77-166) -/

/-- A row of the tags table. -/
structure Tag where
  id : Nat
  name : String
  description : String
  color : String
deriving DecidableEq

/-- A row of the uploaded_files table (upload_date and the surrogate id
play no role in any claim and are omitted; sha_256 carries the UNIQUE
constraint). -/
structure FileRec where
  filename : String
  sha256 : String
  transactionCount : Nat
deriving DecidableEq

/-- A row of the transactions table; date is stored as the text SQLite
receives. -/
structure Txn where
  id : Nat
  date : String
  description : Option String
  amount : Dec
  fileSha : String
  notes : Option String
deriving DecidableEq

/-- The relational store. transactionTags is the join table keyed by the
composite primary key (transaction_id, tag_id); nextTxnId models the
AUTOINCREMENT counter behind cursor.lastrowid. -/
structure Db where
  tags : List Tag
  uploadedFiles : List FileRec
  transactions : List Txn
  transactionTags : List (Nat × Nat)
  nextTxnId : Nat
deriving DecidableEq

/-- A transaction row as the read queries return it: the GROUP_CONCAT of
its tag names (None when it has none) and the LEFT JOINed source
filename. -/
structure TxView where
  id : Nat
  date : String
  description : Option String
  amount : Dec
  notes : Option String
  tags : Option String
  fileSha : String
  sourceFile : Option String
deriving DecidableEq

/-- A value held in the module cache of database.py: the dataframes and
the dict the read paths store. -/
inductive CacheVal
  | tagsDf (df : List Tag)
  | tagMapping (m : List (String × Nat))
  | txDf (df : List TxView)
  | sortDf (df : List TxView)
deriving DecidableEq

/-- One cache slot: its key, the population time _update_cache recorded,
and the stored value. The source keeps _cache and _cache_timestamps in
two dicts always mutated together under _cache_lock; one association
list models the pair. -/
structure CacheEntry where
  key : String
  timestamp : Nat
  val : CacheVal
deriving DecidableEq

/-- The process state a database.py call sees and leaves behind. -/
structure State where
  db : Db
  cache : List CacheEntry
deriving DecidableEq

/-- CACHE_TTL (database.py line 18): five minutes, in seconds. -/
def CACHE_TTL : Nat := 300

/-- _invalidate_cache (database.py lines 23-38): drop the named entry;
when the name is 'transactions', additionally drop every key starting
with 'transactions_sort_'; with no name, clear everything. -/
def invalidateCache (cache : List CacheEntry) (cacheName : Option String) : List CacheEntry :=
  match cacheName with
  | some n =>
    let c := cache.filter (fun e => !(e.key == n))
    if n = "transactions" then
      c.filter (fun e => !(strStartsWith e.key "transactions_sort_"))
    else c
  | none => []

/-- _is_cache_valid (lines 40-46): an entry is valid when present and
younger than the TTL. -/
def isCacheValid (cache : List CacheEntry) (cacheName : String) (now : Nat) : Bool :=
  match cache.find? (fun e => e.key == cacheName) with
  | some e => now - e.timestamp < CACHE_TTL
  | none => false

/-- _update_cache (lines 48-52): store the value under the key with the
current time. -/
def updateCache (cache : List CacheEntry) (cacheName : String) (data : CacheVal) (now : Nat) :
    List CacheEntry :=
  ⟨cacheName, now, data⟩ :: cache.filter (fun e => !(e.key == cacheName))

/-- _get_cache (lines 54-57). -/
def getCache (cache : List CacheEntry) (cacheName : String) : Option CacheVal :=
  match cache.find? (fun e => e.key == cacheName) with
  | some e => some e.val
  | none => none

/-! ## Write paths of database.py -/

/-- save_file_info (database.py lines 257-273): INSERT the file record;
the UNIQUE constraint on sha_256 makes the insert fail when the
fingerprint is already on record, in which case nothing is committed and
False is returned; on success the row is committed and the
uploaded_files cache invalidated. -/
def save_file_info (st : State) (filename sha256 : String) (transactionCount : Nat) :
    Bool × State :=
  if st.db.uploadedFiles.any (fun f => f.sha256 == sha256) then
    (false, st)
  else
    (true,
      { st with
        db := { st.db with uploadedFiles := st.db.uploadedFiles ++ [⟨filename, sha256, transactionCount⟩] },
        cache := invalidateCache st.cache (some "uploaded_files") })

/-- The inline UPDATE of process_uploaded_files (file_import.py lines
119-127): back-fill transaction_count for the record with this
fingerprint. Note the source commits this through a raw connection and
never touches the cache here. -/
def updateTransactionCount (st : State) (sha256 : String) (n : Nat) : State :=
  { st with
    db := { st.db with
      uploadedFiles := st.db.uploadedFiles.map (fun f =>
        if f.sha256 == sha256 then { f with transactionCount := n } else f) } }

/-- Message of the exception save_transactions raises: database.py lines
311-338 apply the pandas dataframe API (df.copy(), item assignment,
df.iterrows(), pd.notna — with pandas never imported in database.py) to
the polars dataframe parse_contents builds, and polars dataframes have
no such attributes, so the body raises at df.copy() on line 312 before
any INSERT is executed. -/
def pandasAttrError : String :=
  "AttributeError: DataFrame object has no attribute copy"

/-- save_transactions (database.py lines 302-343). The body raises
unconditionally on its pandas-only dataframe calls (see pandasAttrError)
before reaching any INSERT or the commit on line 340; the finally block
closes the connection without committing, so the open transaction is
rolled back and the database and cache are left unchanged, and the
exception propagates to the caller (there is no except clause). -/
def save_transactions (st : State) (_df : List TxRow) (_sha256 : String) :
    Except String Unit × State :=
  (.error pandasAttrError, st)

/-- The tag-name splitting of save_transactions line 331 — the one
statement of its row loop that is plain Python on str(row['Tags']):
split on commas and strip whitespace. It is unreachable at run time
(save_transactions raises earlier) but models the written logic. -/
def parse_tag_names (s : String) : List String :=
  (pySplit s ',').map pyStrip

/-- The dict of tag name to id save_transactions builds on line 309 and
get_tag_name_to_id_mapping on line 431 (SELECT id, name FROM tags). -/
def tagNameToId (db : Db) : List (String × Nat) :=
  db.tags.map (fun t => (t.name, t.id))

/-- The case-sensitive membership test of save_transactions line 333:
tag_name in tags (dict-key membership over the tag names). -/
def tagNameKnown (db : Db) (n : String) : Bool :=
  db.tags.any (fun t => t.name == n)

/-- The inner insert loop of update_transaction_tags (lines 392-396) and
create_manual_transaction (lines 464-469): INSERT each (transaction_id,
tag_id) pair into transaction_tags; the composite PRIMARY KEY makes an
insert of an already-present pair raise, aborting the loop (None); on
success the accumulated table is returned. SQLite runs without PRAGMA
foreign_keys, so foreign-key violations do not raise. -/
def insertTagsLoop (tt : List (Nat × Nat)) (tid : Nat) : List Nat → Option (List (Nat × Nat))
  | [] => some tt
  | i :: rest =>
    if tt.contains (tid, i) then none
    else insertTagsLoop (tt ++ [(tid, i)]) tid rest

/-- update_transaction_tags (database.py lines 383-405): DELETE the
transaction's join rows, INSERT the new pairs, then commit once; any
exception is caught, False is returned, and the finally close rolls the
uncommitted delete and inserts back. -/
def update_transaction_tags (st : State) (tid : Nat) (tagIds : List Nat) : Bool × State :=
  match insertTagsLoop (st.db.transactionTags.filter (fun p => !(p.1 == tid))) tid tagIds with
  | some tt =>
    (true,
      { st with
        db := { st.db with transactionTags := tt },
        cache := invalidateCache st.cache (some "transactions") })
  | none => (false, st)

/-- update_transaction_note (lines 407-424): UPDATE the row's notes,
commit, invalidate the transactions cache, return True. -/
def update_transaction_note (st : State) (tid : Nat) (note : String) : Bool × State :=
  (true,
    { st with
      db := { st.db with
        transactions := st.db.transactions.map (fun t =>
          if t.id == tid then { t with notes := some note } else t) },
      cache := invalidateCache st.cache (some "transactions") })

/-- create_manual_transaction (lines 439-478): INSERT the transaction
with the 'manual_entry' fingerprint sentinel, INSERT its tag links, then
commit and invalidate; on a failing tag insert the exception is caught,
None returned, and the close rolls everything back. -/
def create_manual_transaction (st : State) (date : String) (description : String)
    (amount : Dec) (notes : Option String) (tagIds : List Nat) : Option Nat × State :=
  match insertTagsLoop st.db.transactionTags st.db.nextTxnId tagIds with
  | some tt =>
    (some st.db.nextTxnId,
      { st with
        db := { st.db with
          transactions := st.db.transactions ++
            [⟨st.db.nextTxnId, date, some description, amount, "manual_entry", notes⟩],
          transactionTags := tt,
          nextTxnId := st.db.nextTxnId + 1 },
        cache := invalidateCache st.cache (some "transactions") })
  | none => (none, st)

/-- delete_transactions (lines 541-566): delete the join rows then the
transactions for the given ids, commit, invalidate. -/
def delete_transactions (st : State) (ids : List Nat) : Bool × State :=
  (true,
    { st with
      db := { st.db with
        transactionTags := st.db.transactionTags.filter (fun p => !(ids.contains p.1)),
        transactions := st.db.transactions.filter (fun t => !(ids.contains t.id)) },
      cache := invalidateCache st.cache (some "transactions") })

/-! ## Read paths of database.py -/

/-- Sort used by get_tags' ORDER BY name: insertion into a sorted
list. -/
def insertBy (le : α → α → Bool) (x : α) : List α → List α
  | [] => [x]
  | y :: ys => if le x y then x :: y :: ys else y :: insertBy le x ys

/-- Insertion sort with a boolean comparator, modelling ORDER BY. -/
def sortByB (le : α → α → Bool) : List α → List α
  | [] => []
  | x :: xs => insertBy le x (sortByB le xs)

/-- get_tags (database.py lines 195-206): on a cold or expired 'tags'
entry, SELECT * FROM tags ORDER BY name, cache the dataframe under
'tags' and return it; otherwise return the cached value ('empty
dataframe' when the slot is somehow absent). -/
def get_tags (st : State) (now : Nat) : List Tag × State :=
  if isCacheValid st.cache "tags" now then
    match getCache st.cache "tags" with
    | some (.tagsDf df) => (df, st)
    | _ => ([], st)
  else
    let df := sortByB (fun a b => strLeB a.name b.name) st.db.tags
    (df, { st with cache := updateCache st.cache "tags" (.tagsDf df) now })

/-- get_tag_name_to_id_mapping (database.py lines 426-437): the validity
test is made on the 'tags' key, but the computed dict is stored under —
and the cached path reads from — the distinct key 'tag_mapping'. -/
def get_tag_name_to_id_mapping (st : State) (now : Nat) : List (String × Nat) × State :=
  if isCacheValid st.cache "tags" now then
    match getCache st.cache "tag_mapping" with
    | some (.tagMapping m) => (m, st)
    | _ => ([], st)
  else
    let m := tagNameToId st.db
    (m, { st with cache := updateCache st.cache "tag_mapping" (.tagMapping m) now })

/-- GROUP_CONCAT(tg.name) for one transaction: its tag names joined with
commas, NULL when it has none (join-table order; GROUP_CONCAT order is
unspecified in SQLite and the model fixes insertion order). -/
def groupConcatTags (db : Db) (tid : Nat) : Option String :=
  match (db.transactionTags.filter (fun p => p.1 == tid)).filterMap
      (fun p => (db.tags.find? (fun t => t.id == p.2)).map (fun t => t.name)) with
  | [] => none
  | n :: ns => some (joinWith "," (n :: ns))

/-- One row of the joined SELECT of load_transactions_with_sort (lines
500-518): transaction fields, concatenated tags, LEFT JOINed source
filename. -/
def toView (db : Db) (t : Txn) : TxView :=
  ⟨t.id, t.date, t.description, t.amount, t.notes, groupConcatTags db t.id, t.fileSha,
    (db.uploadedFiles.find? (fun f => f.sha256 == t.fileSha)).map (fun f => f.filename)⟩

/-- Python truthiness of the search text (`if search_text:`). -/
def pyTruthy : Option String → Bool
  | some s => !(s == "")
  | none => false

/-- The f-string rendering of an optional argument inside the cache key
(None renders as "None"). -/
def pyShow : Option String → String
  | none => "None"
  | some s => s

/-- The keys of column_map (lines 493-497). -/
def validSearchCol (c : String) : Bool :=
  c == "date" || c == "description" || c == "amount"

/-- The LIKE '%text%' predicate of line 513 against the mapped column of
one row (NULL never matches LIKE; numbers are compared through their
text rendering, as SQLite coerces). -/
def searchMatches (colOn : String) (pat : String) (v : TxView) : Bool :=
  if colOn = "description" then
    match v.description with
    | some d => likeMatches d pat
    | none => false
  else if colOn = "amount" then likeMatches v.amount.render pat
  else likeMatches v.date pat

/-- ORDER BY comparator over the validated sort column. -/
def viewLe (col : String) (a b : TxView) : Bool :=
  if col = "description" then
    match a.description, b.description with
    | none, _ => true
    | some _, none => false
    | some x, some y => strLeB x y
  else if col = "amount" then Dec.decLe a.amount b.amount
  else strLeB a.date b.date

/-- The database work of load_transactions_with_sort (lines 486-533):
validate the sort column (lower-case, fall back to 'date'), apply the
optional LIKE filter, sort ascending or descending. -/
def queryTxSorted (db : Db) (sortCol : String) (asc : Bool)
    (searchText searchOn : Option String) : List TxView :=
  let col :=
    let c := lowerStr sortCol
    if validSearchCol c then c else "date"
  let base := db.transactions.map (toView db)
  let filtered :=
    match searchText, searchOn with
    | some s, some c => if !(s == "") then base.filter (searchMatches c s) else base
    | _, _ => base
  if asc then sortByB (viewLe col) filtered
  else sortByB (fun a b => viewLe col b a) filtered

/-- The cache key of load_transactions_with_sort (line 482), built from
the raw, pre-validation arguments. -/
def mkSortKey (sortCol : String) (asc : Bool) (searchText searchOn : Option String) : String :=
  "transactions_sort_" ++ sortCol ++ "_" ++ (if asc then "True" else "False") ++ "_" ++
    pyShow searchText ++ "_" ++ pyShow searchOn

/-- load_transactions_with_sort (database.py lines 480-539): serve a
valid cache entry, else run the query and cache it under the key. When
the search text is truthy and search_text_on is not a column_map key,
line 513's column_map[search_text_on] raises KeyError (there is no
except in this function), leaving state unchanged. -/
def load_transactions_with_sort (st : State) (now : Nat) (sortCol : String) (asc : Bool)
    (searchText searchOn : Option String) : Except String (List TxView) × State :=
  if isCacheValid st.cache (mkSortKey sortCol asc searchText searchOn) now then
    match getCache st.cache (mkSortKey sortCol asc searchText searchOn) with
    | some (.sortDf df) => (.ok df, st)
    | _ => (.ok [], st)
  else
    if pyTruthy searchText &&
        !(match searchOn with | some c => validSearchCol c | none => false) then
      (.error ("KeyError: " ++ pyShow searchOn), st)
    else
      (.ok (queryTxSorted st.db sortCol asc searchText searchOn),
        { st with
          cache := updateCache st.cache (mkSortKey sortCol asc searchText searchOn)
            (.sortDf (queryTxSorted st.db sortCol asc searchText searchOn)) now })

/-! ## Batch orchestration (file_import.py lines 85-156) -/

/-- One iteration of the upload loop (lines 102-131) on one (contents,
filename) pair: hash, dedup-gate through save_file_info, parse, back-fill
the count; yields the state after the iteration, the status string
appended for the file, and the parsed dataframe with its fingerprint
when one was produced. -/
def stepFile (hash : String → String) (format_type : FormatType)
    (custom_columns : Option CustomCols) (st : State) (contents filename : String) :
    State × String × Option (List TxRow × String) :=
  let sha256 := hash contents
  match save_file_info st filename sha256 0 with
  | (false, st1) =>
    (st1, "⚠️ " ++ filename ++ " was already uploaded and will be skipped", none)
  | (true, st1) =>
    match parse_contents contents filename format_type custom_columns with
    | .ok df =>
      (updateTransactionCount st1 sha256 df.length,
        "✅ " ++ filename ++ " uploaded successfully (" ++ toString df.length ++ " transactions)",
        some (df, sha256))
    | .error e => (st1, "❌ " ++ filename ++ ": " ++ e, none)

/-- The result of running the upload loop: final state, the dfs list of
(dataframe, fingerprint) pairs, and one status string per file, in input
order. -/
structure LoopResult where
  st : State
  dfs : List (List TxRow × String)
  statuses : List String
deriving DecidableEq

/-- The upload loop of process_uploaded_files (lines 99-131) over the
zipped (contents, filename) pairs. Every branch of the body appends
exactly one status and then continues with the next file; no branch
raises. -/
def uploadLoop (hash : String → String) (format_type : FormatType)
    (custom_columns : Option CustomCols) : State → List (String × String) → LoopResult
  | st, [] => ⟨st, [], []⟩
  | st, (contents, filename) :: rest =>
    let step := stepFile hash format_type custom_columns st contents filename
    let r := uploadLoop hash format_type custom_columns step.1 rest
    ⟨r.st, (match step.2.2 with | some d => [d] | none => []) ++ r.dfs, step.2.1 :: r.statuses⟩

/-- The custom_columns dict process_uploaded_files builds before the
loop (lines 91-97): for the 'custom' format it always passes a dict with
all three keys, holding the raw caller arguments (None for unset ones);
for other formats it passes None. -/
def buildCustomColumns (format_type : FormatType) (d de a : Option String) : Option CustomCols :=
  if format_type = .custom then some ⟨d, de, a⟩ else none

/-- The outcome of one process_uploaded_files call: the final state, and
either the returned triple (combined view, tag options, statuses) or the
message of an uncaught exception. In every reachable return the combined
view is None: the return on line 89 (no input) and line 135 (no parsed
dataframes) both return None, and whenever dfs is non-empty the save
phase (line 140) raises inside save_transactions, so the combined-view
code of lines 143-156 is dead and the statuses are lost with the
exception. -/
structure ProcResult where
  st : State
  outcome : Except String (Option Unit × List String × List String)

/-- process_uploaded_files (file_import.py lines 85-156). -/
def process_uploaded_files (hash : String → String) (st : State)
    (contents_list filename_list : List String) (format_type : FormatType)
    (custom_date_col custom_desc_col custom_amount_col : Option String) : ProcResult :=
  if contents_list.isEmpty then ⟨st, .ok (none, [], [])⟩
  else
    let custom_columns :=
      buildCustomColumns format_type custom_date_col custom_desc_col custom_amount_col
    let r := uploadLoop hash format_type custom_columns st (contents_list.zip filename_list)
    match r.dfs with
    | [] => ⟨r.st, .ok (none, [], r.statuses)⟩
    | (df, sha256) :: _ =>
      match save_transactions r.st df sha256 with
      | (.error e, st2) => ⟨st2, .error e⟩
      | (.ok _, st2) => ⟨st2, .error pandasAttrError⟩

/-! ## Specification-side definition for the custom-mapping claim

The spec (section 4.2) states a per-field fallback for the 'custom'
format. This definition follows the spec's words, to be compared with
resolveMapping, which is translated from the source. -/

/-- The column resolution as the specification describes it: each unset
custom field falls back to the standard name independently. -/
def resolveMappingSpecClaim : FormatType → Option CustomCols → Mapping
  | .standard, _ => standardMapping
  | .bank, _ => bankMapping
  | .custom, none => standardMapping
  | .custom, some c =>
    ⟨some (c.date.getD "Date"), some (c.description.getD "Description"),
      some (c.amount.getD "Amount")⟩

/-- The empty process state used by concrete scenarios. -/
def emptyState : State := ⟨⟨[], [], [], [], 1⟩, []⟩

/-! ## Row families and predicates used to state the amount-coercion
claim -/

/-- A Date cell the strict datetime cast accepts: null, or parsable
text. -/
def dateCellOk : Option String → Bool
  | none => true
  | some s => (parseDt s).isSome

/-- An Amount cell the strict decimal cast accepts: null, or parsable
text. -/
def amountCellOk : Option String → Bool
  | none => true
  | some s => (parseDecimal s).isSome

/-- A CSV with the standard three-column header built from (date cell,
description cell, amount cell) triples. -/
def mkStdCsv (rs : List (Option String × Option String × Option String)) : Csv :=
  ⟨["Date", "Description", "Amount"], rs.map (fun r => [r.1, r.2.1, r.2.2])⟩

/-- The normalised row a standard-format triple yields, None when the
row is dropped for a null amount. -/
def stdRowOf (r : Option String × Option String × Option String) : Option TxRow :=
  match r.2.2 with
  | none => none
  | some s =>
    match parseDecimal s with
    | some q => some ⟨r.1.bind parseDt, r.2.1, q, some ""⟩
    | none => none

/-! ## Concrete scenario data -/

/-- The decoded CSV of the specification's concrete standard-format
scenario (section 8). -/
def sampleCsv : String :=
  "Date,Description,Amount\n2024-01-05,Coffee Shop,4.50\n2024-01-06,Rent,1500"

/-- A CSV missing the Amount column. -/
def noAmountCsv : String := "Date,Description\nx,y"

/-- A CSV whose Amount column holds non-numeric text. -/
def abcAmountCsv : String := "Date,Description,Amount\n2024-01-05,Coffee,abc"

/-- The partial custom column selection of the per-field-fallback
claim: only the date column is set. -/
def partialCustomCols : CustomCols := ⟨some "When", none, none⟩

/-- A CSV matching what the spec's per-field fallback would expect for
partialCustomCols: the caller's date column plus standard names. -/
def whenCsv : String := "When,Description,Amount\n2024-01-05,Coffee,4.50"

/-- A store whose Tag table holds Groceries but not Dining, with one
uploaded file on record. -/
def groceriesState : State :=
  ⟨⟨[⟨1, "Groceries", "Food, household items, and daily essentials", "#FF9999"⟩],
    [⟨"g.csv", "sha-g", 1⟩], [], [], 1⟩, []⟩

/-- A normalised row tagged "Groceries, Dining". -/
def groceriesRow : TxRow :=
  ⟨some ⟨2024, 1, 5, 0, 0, 0⟩, some "Lunch", ⟨1050, 2⟩, some "Groceries, Dining"⟩

/-! ## Helper lemmas -/

theorem mem_missingColumns_none (csv : Csv) (m : Mapping) (h : m.description = none) :
    (none : Option String) ∈ missingColumns csv m := by
  apply List.mem_filter.mpr
  refine ⟨?_, rfl⟩
  simp only [mappingValues, List.mem_cons, List.not_mem_nil, or_false]
  exact Or.inr (Or.inl h.symm)

theorem normalize_none_field_errors (csv : Csv) (fn : String) (ft : FormatType)
    (cc : Option CustomCols) (h : (resolveMapping ft cc).description = none) :
    normalize csv fn ft cc = .error (joinNoneError fn) := by
  have hmem := mem_missingColumns_none csv (resolveMapping ft cc) h
  have hne : missingColumns csv (resolveMapping ft cc) ≠ [] := by
    intro h0
    rw [h0] at hmem
    exact List.not_mem_nil _ hmem
  have hempty : (missingColumns csv (resolveMapping ft cc)).isEmpty = false := by
    cases hcase : missingColumns csv (resolveMapping ft cc) with
    | nil => exact absurd hcase hne
    | cons a l => rfl
  have hall : (missingColumns csv (resolveMapping ft cc)).all (fun v => v.isSome) = false := by
    apply Bool.eq_false_iff.mpr
    intro hall
    have := List.all_eq_true.mp hall _ hmem
    simp at this
  simp [normalize, hempty, hall]

/-! ## Claim theorems -/

/-- C2: evaluation of the pipeline at the specification's concrete
standard-format scenario. The two rows parse as expected, the status
string "uploaded successfully (2 transactions)" is built, and the
UploadedFile record's transaction_count is back-filled to 2 — but
process_uploaded_files then raises inside save_transactions (pandas API
applied to a polars dataframe), so no Transaction row is ever persisted
and the statuses are lost with the exception instead of being returned.
The claim's "exactly 2 persisted Transaction rows" is refuted by the
final conjunct; the digest function is instantiated with a concrete
deterministic function, which is all the pipeline uses. -/
theorem claim2_standard_scenario_rows_never_persisted :
    parse_contents sampleCsv "tx.csv" .standard none =
      .ok [⟨some ⟨2024, 1, 5, 0, 0, 0⟩, some "Coffee Shop", ⟨450, 2⟩, some ""⟩,
           ⟨some ⟨2024, 1, 6, 0, 0, 0⟩, some "Rent", ⟨1500, 0⟩, some ""⟩] ∧
    (uploadLoop (fun s => s) .standard none emptyState [(sampleCsv, "tx.csv")]).statuses =
      ["✅ tx.csv uploaded successfully (2 transactions)"] ∧
    (uploadLoop (fun s => s) .standard none emptyState [(sampleCsv, "tx.csv")]).st.db.uploadedFiles =
      [⟨"tx.csv", sampleCsv, 2⟩] ∧
    (process_uploaded_files (fun s => s) emptyState [sampleCsv] ["tx.csv"] .standard
        none none none).outcome = .error pandasAttrError ∧
    (process_uploaded_files (fun s => s) emptyState [sampleCsv] ["tx.csv"] .standard
        none none none).st.db.transactions = [] :=
  ⟨rfl, rfl, rfl, rfl, rfl⟩

/-- C5: the upload loop handles the files strictly in input order and
emits exactly one status per file without halting on a skip or a
failure — but whenever at least one file parsed, process_uploaded_files
raises in its save phase and returns neither the statuses nor any
combined view; only a batch with no parsed file returns its statuses. -/
theorem claim5_batch_statuses_built_but_not_returned :
    (uploadLoop (fun s => s) .standard none emptyState
        [(sampleCsv, "a.csv"), (sampleCsv, "b.csv"), (noAmountCsv, "c.csv")]).statuses =
      ["✅ a.csv uploaded successfully (2 transactions)",
       "⚠️ b.csv was already uploaded and will be skipped",
       "❌ c.csv: CSV is missing required columns: Amount"] ∧
    (process_uploaded_files (fun s => s) emptyState [sampleCsv, sampleCsv, noAmountCsv]
        ["a.csv", "b.csv", "c.csv"] .standard none none none).outcome =
      .error pandasAttrError ∧
    (process_uploaded_files (fun s => s) emptyState [noAmountCsv] ["c.csv"] .standard
        none none none).outcome =
      .ok (none, [], ["❌ c.csv: CSV is missing required columns: Amount"]) :=
  ⟨rfl, rfl, rfl⟩

/-- C6: the tag-splitting written in save_transactions matches the
claim's description (split on commas, strip, case-sensitive membership
keeps only "Groceries"), but save_transactions raises on its pandas-only
dataframe calls before reaching that loop, so on the claim's concrete
scenario no TransactionTag row is inserted at all and the state is
returned unchanged. -/
theorem claim6_tag_links_never_inserted :
    parse_tag_names "Groceries, Dining" = ["Groceries", "Dining"] ∧
    ["Groceries", "Dining"].filter (tagNameKnown groceriesState.db) = ["Groceries"] ∧
    save_transactions groceriesState [groceriesRow] "sha-g" =
      (.error pandasAttrError, groceriesState) ∧
    (save_transactions groceriesState [groceriesRow] "sha-g").2.db.transactionTags = [] :=
  ⟨rfl, rfl, rfl, rfl⟩

/-- C3 counterexample: with only the date column set, the source's
resolution keeps the unset fields as None instead of falling back to
the standard names per field, and parsing a CSV that carries the
claimed fallback columns (When, Description, Amount) fails with the
TypeError of joining a None "column name" rather than succeeding. -/
theorem claim3_counterexample :
    resolveMapping .custom (some partialCustomCols) ≠
      resolveMappingSpecClaim .custom (some partialCustomCols) ∧
    resolveMappingSpecClaim .custom (some partialCustomCols) =
      ⟨some "When", some "Description", some "Amount"⟩ ∧
    resolveMapping .custom (some partialCustomCols) = ⟨some "When", none, none⟩ ∧
    parse_contents whenCsv "f.csv" .custom (some partialCustomCols) =
      .error (joinNoneError "f.csv") := by
  refine ⟨?_, rfl, rfl, rfl⟩
  decide

/-- C3 (amended): the caller-supplied custom dict is used as a whole;
the standard mapping is the fallback only when no custom dict is
supplied at all; process_uploaded_files always passes a full dict of
the three raw arguments for the custom format; and a custom upload with
an unset field always fails the file rather than resolving that field
to a standard name. -/
theorem claim3_custom_mapping_whole_dict :
    (∀ c : CustomCols, resolveMapping .custom (some c) = ⟨c.date, c.description, c.amount⟩) ∧
    resolveMapping .custom none = standardMapping ∧
    (∀ d de a : Option String, buildCustomColumns .custom d de a = some ⟨d, de, a⟩) ∧
    (∀ (decoded fn : String) (d a : Option String),
      ∃ m, parse_contents decoded fn .custom (some ⟨d, none, a⟩) = .error m) := by
  refine ⟨fun c => rfl, rfl, fun d de a => rfl, fun decoded fn d a => ?_⟩
  unfold parse_contents
  cases hr : read_csv decoded with
  | error e => exact ⟨_, rfl⟩
  | ok csv => exact ⟨_, normalize_none_field_errors csv fn .custom (some ⟨d, none, a⟩) rfl⟩

/-- C4 counterexample: a CSV row whose Amount is the non-numeric text
"abc" does not become null and get dropped; the strict decimal cast
raises and parse_contents fails the whole file with an error instead of
returning a dataframe. -/
theorem claim4_counterexample :
    parse_contents abcAmountCsv "f.csv" .standard none = .error (amountCastError "f.csv") :=
  rfl

theorem insertTagsLoop_ok (tid : Nat) :
    ∀ (ids : List Nat) (acc tt : List (Nat × Nat)),
      insertTagsLoop acc tid ids = some tt → tt = acc ++ ids.map (fun i => (tid, i)) := by
  intro ids
  induction ids with
  | nil =>
    intro acc tt h
    simp only [insertTagsLoop, Option.some.injEq] at h
    simp [h.symm]
  | cons i rest ih =>
    intro acc tt h
    unfold insertTagsLoop at h
    cases hc : acc.contains (tid, i) with
    | true => rw [hc] at h; cases h
    | false =>
      rw [hc] at h
      simp only [Bool.false_eq_true, if_false] at h
      have := ih (acc ++ [(tid, i)]) tt h
      simp [this, List.append_assoc]

theorem filter_fst_ne_map_pair (tid : Nat) (ids : List Nat) :
    (ids.map (fun i => (tid, i))).filter (fun p => !(p.1 == tid)) = [] := by
  induction ids with
  | nil => rfl
  | cons i rest ih => simp [ih]

theorem filter_fst_eq_map_pair (tid : Nat) (ids : List Nat) :
    (ids.map (fun i => (tid, i))).filter (fun p => p.1 == tid) = ids.map (fun i => (tid, i)) := by
  induction ids with
  | nil => rfl
  | cons i rest ih => simp [ih]

theorem length_insertBy (le : α → α → Bool) (x : α) (l : List α) :
    (insertBy le x l).length = l.length + 1 := by
  induction l with
  | nil => rfl
  | cons y ys ih =>
    unfold insertBy
    cases le x y with
    | true => simp
    | false => simp [ih]

theorem length_sortByB (le : α → α → Bool) (l : List α) :
    (sortByB le l).length = l.length := by
  induction l with
  | nil => rfl
  | cons x xs ih => simp [sortByB, length_insertBy, ih]

/-- C10: update_transaction_tags is atomic. Either it returns True and
the transaction's join rows afterwards are exactly the given tag ids
(and no other transaction's rows changed, nor the transactions table),
or it returns False and the whole state is unchanged — the delete and
the inserts are committed by the single commit that runs only after
every insert succeeded, and the error path closes the connection
without committing, rolling them back. -/
theorem claim10_update_tags_atomic (st : State) (tid : Nat) (ids : List Nat) :
    ((update_transaction_tags st tid ids).1 = true ∧
      (((update_transaction_tags st tid ids).2).db.transactionTags.filter
          (fun p => p.1 == tid)).map (fun p => p.2) = ids ∧
      ((update_transaction_tags st tid ids).2).db.transactionTags.filter
          (fun p => !(p.1 == tid)) =
        st.db.transactionTags.filter (fun p => !(p.1 == tid)) ∧
      ((update_transaction_tags st tid ids).2).db.transactions = st.db.transactions) ∨
    ((update_transaction_tags st tid ids).1 = false ∧
      (update_transaction_tags st tid ids).2 = st) := by
  unfold update_transaction_tags
  cases h : insertTagsLoop (st.db.transactionTags.filter (fun p => !(p.1 == tid))) tid ids with
  | none => right; exact ⟨rfl, rfl⟩
  | some tt =>
    left
    have htt := insertTagsLoop_ok tid ids _ tt h
    subst htt
    refine ⟨rfl, ?_, ?_, rfl⟩
    · show ((st.db.transactionTags.filter (fun p => !(p.1 == tid)) ++
          ids.map (fun i => (tid, i))).filter (fun p => p.1 == tid)).map (fun p => p.2) = ids
      rw [List.filter_append]
      have h1 : (st.db.transactionTags.filter (fun p => !(p.1 == tid))).filter
          (fun p => p.1 == tid) = [] := by
        rw [List.filter_filter]
        apply List.filter_eq_nil_iff.mpr
        intro p _
        cases hp : p.1 == tid <;> simp [hp]
      rw [h1, filter_fst_eq_map_pair]
      simp [List.map_map]
    · show (st.db.transactionTags.filter (fun p => !(p.1 == tid)) ++
          ids.map (fun i => (tid, i))).filter (fun p => !(p.1 == tid)) =
        st.db.transactionTags.filter (fun p => !(p.1 == tid))
      rw [List.filter_append, filter_fst_ne_map_pair, List.append_nil, List.filter_filter]
      apply List.filter_congr
      intro p _
      cases hp : p.1 == tid <;> simp [hp]

/-- C9: a reachable cache state in which get_tag_name_to_id_mapping
returns the empty mapping although the tags table is non-empty: after
one get_tags call on a cold cache, the 'tags' slot is valid (so the
mapping function takes its cached path) but the 'tag_mapping' slot it
reads from was never populated, so the lookup yields None and the
function returns the empty dict, while get_tags itself returned every
tag of the non-empty table. -/
theorem claim9_tag_mapping_reads_wrong_key (db : Db) (now : Nat) (h : db.tags ≠ []) :
    (get_tag_name_to_id_mapping (get_tags ⟨db, []⟩ now).2 now).1 = [] ∧
    isCacheValid ((get_tags ⟨db, []⟩ now).2).cache "tags" now = true ∧
    getCache ((get_tags ⟨db, []⟩ now).2).cache "tag_mapping" = none ∧
    (get_tags ⟨db, []⟩ now).1.length = db.tags.length ∧
    db.tags ≠ [] := by
  have hcold : isCacheValid ([] : List CacheEntry) "tags" now = false := rfl
  have hstep : get_tags ⟨db, []⟩ now =
      (sortByB (fun a b => strLeB a.name b.name) db.tags,
        ⟨db, [⟨"tags", now, .tagsDf (sortByB (fun a b => strLeB a.name b.name) db.tags)⟩]⟩) := by
    simp [get_tags, hcold, updateCache]
  rw [hstep]
  have hvalid : isCacheValid [⟨"tags", now,
      CacheVal.tagsDf (sortByB (fun a b => strLeB a.name b.name) db.tags)⟩] "tags" now = true := by
    simp [isCacheValid, List.find?, CACHE_TTL]
  have hmiss : getCache [⟨"tags", now,
      CacheVal.tagsDf (sortByB (fun a b => strLeB a.name b.name) db.tags)⟩] "tag_mapping" = none := by
    simp [getCache, List.find?]
  refine ⟨?_, hvalid, hmiss, length_sortByB _ _, h⟩
  simp [get_tag_name_to_id_mapping, hvalid, hmiss]

/-- C8: whenever the resolved mapping names real columns and at least
one of them is absent from the CSV, normalisation fails the file with
the missing-columns error naming every absent column (the joined full
missing list, not just the first) — and the upload loop's handling of
one file is independent of the rest: the loop on any batch emits the
head file's status and then continues with the remaining files from the
post-head state, whatever the head's outcome was. -/
theorem claim8_missing_columns_all_named (csv : Csv) (fn : String) (ft : FormatType)
    (cc : Option CustomCols) (md mde ma : String)
    (hm : resolveMapping ft cc = ⟨some md, some mde, some ma⟩)
    (hmiss : missingColumns csv (resolveMapping ft cc) ≠ []) :
    normalize csv fn ft cc =
      .error ("CSV is missing required columns: " ++
        joinWith ", " ((missingColumns csv (resolveMapping ft cc)).filterMap id)) ∧
    (∀ (hash : String → String) (st : State) (c f : String) (rest : List (String × String)),
      (uploadLoop hash ft cc st ((c, f) :: rest)).statuses =
        (stepFile hash ft cc st c f).2.1 ::
          (uploadLoop hash ft cc (stepFile hash ft cc st c f).1 rest).statuses) := by
  constructor
  · have hempty : (missingColumns csv (resolveMapping ft cc)).isEmpty = false := by
      cases hcase : missingColumns csv (resolveMapping ft cc) with
      | nil => exact absurd hcase hmiss
      | cons a l => rfl
    have hall : (missingColumns csv (resolveMapping ft cc)).all (fun v => v.isSome) = true := by
      apply List.all_eq_true.mpr
      intro v hv
      have hvals : v ∈ mappingValues (resolveMapping ft cc) := (List.mem_filter.mp hv).1
      rw [hm] at hvals
      simp only [mappingValues, List.mem_cons, List.not_mem_nil, or_false] at hvals
      rcases hvals with h | h | h <;> simp [h]
    simp [normalize, hempty, hall]
  · intro hash st c f rest
    rfl

/-! ## Column traversal lemmas for the amount-coercion claim -/

theorem colMapM_castDate_ok (fn : String) (cells : List (Option String))
    (h : ∀ c ∈ cells, dateCellOk c = true) :
    colMapM (castDateCell fn) cells = .ok (cells.map (fun c => c.bind parseDt)) := by
  induction cells with
  | nil => rfl
  | cons c cs ih =>
    have hc : castDateCell fn c = .ok (c.bind parseDt) := by
      cases c with
      | none => rfl
      | some s =>
        have hs := h _ (List.mem_cons_self _ _)
        simp only [dateCellOk] at hs
        cases hp : parseDt s with
        | none => rw [hp] at hs; simp at hs
        | some dt => simp [castDateCell, hp]
    simp only [colMapM, hc, ih (fun x hx => h x (List.mem_cons_of_mem _ hx)), List.map_cons]

theorem colMapM_castAmount_ok (fn : String) (cells : List (Option String))
    (h : ∀ c ∈ cells, amountCellOk c = true) :
    colMapM (castAmountCell fn) cells = .ok (cells.map (fun c => c.bind parseDecimal)) := by
  induction cells with
  | nil => rfl
  | cons c cs ih =>
    have hc : castAmountCell fn c = .ok (c.bind parseDecimal) := by
      cases c with
      | none => rfl
      | some s =>
        have hs := h _ (List.mem_cons_self _ _)
        simp only [amountCellOk] at hs
        cases hp : parseDecimal s with
        | none => rw [hp] at hs; simp at hs
        | some q => simp [castAmountCell, hp]
    simp only [colMapM, hc, ih (fun x hx => h x (List.mem_cons_of_mem _ hx)), List.map_cons]

theorem colMapM_castAmount_err (fn : String) (cells : List (Option String))
    (h : ∃ c ∈ cells, amountCellOk c = false) :
    colMapM (castAmountCell fn) cells = .error (amountCastError fn) := by
  induction cells with
  | nil => obtain ⟨c, hc, _⟩ := h; cases hc
  | cons c cs ih =>
    obtain ⟨x, hx, hbad⟩ := h
    rcases List.mem_cons.mp hx with hx0 | hx1
    · subst hx0
      cases x with
      | none => cases hbad
      | some s =>
        simp only [amountCellOk] at hbad
        cases hp : parseDecimal s with
        | some q => rw [hp] at hbad; simp at hbad
        | none =>
          have hc : castAmountCell fn (some s) = .error (amountCastError fn) := by
            simp [castAmountCell, hp]
          simp only [colMapM, hc]
    · cases c with
      | none => simp only [colMapM, castAmountCell, ih ⟨x, hx1, hbad⟩]
      | some s =>
        cases hp : parseDecimal s with
        | some q =>
          have hc : castAmountCell fn (some s) = .ok (some q) := by
            simp [castAmountCell, hp]
          simp only [colMapM, hc, ih ⟨x, hx1, hbad⟩]
        | none =>
          have hc : castAmountCell fn (some s) = .error (amountCastError fn) := by
            simp [castAmountCell, hp]
          simp only [colMapM, hc]

theorem stdCsv_col_date (rs : List (Option String × Option String × Option String)) :
    (rs.map (fun r => [r.1, r.2.1, r.2.2])).map (fun row => getCell row (some 0)) =
      rs.map (fun r => r.1) := by
  induction rs with
  | nil => rfl
  | cons r t ih => simp only [List.map_cons, ih]; rfl

theorem stdCsv_col_desc (rs : List (Option String × Option String × Option String)) :
    (rs.map (fun r => [r.1, r.2.1, r.2.2])).map (fun row => getCell row (some 1)) =
      rs.map (fun r => r.2.1) := by
  induction rs with
  | nil => rfl
  | cons r t ih => simp only [List.map_cons, ih]; rfl

theorem stdCsv_col_amount (rs : List (Option String × Option String × Option String)) :
    (rs.map (fun r => [r.1, r.2.1, r.2.2])).map (fun row => getCell row (some 2)) =
      rs.map (fun r => r.2.2) := by
  induction rs with
  | nil => rfl
  | cons r t ih => simp only [List.map_cons, ih]; rfl

theorem stdCsv_col_tags (rs : List (Option String × Option String × Option String)) :
    (rs.map (fun r => [r.1, r.2.1, r.2.2])).map (fun _ => (some "" : Option String)) =
      rs.map (fun _ => (some "" : Option String)) := by
  induction rs with
  | nil => rfl
  | cons r t ih => simp only [List.map_cons, ih]

theorem assembleRows_std (rs : List (Option String × Option String × Option String)) :
    assembleRows ((rs.map (fun r => r.1.bind parseDt)).zip
        ((rs.map (fun r => r.2.2.bind parseDecimal)).zip
          ((rs.map (fun r => r.2.1)).zip (rs.map (fun _ => (some "" : Option String)))))) =
      rs.filterMap stdRowOf := by
  induction rs with
  | nil => rfl
  | cons r t ih =>
    simp only [List.map_cons, List.zip_cons_cons, List.filterMap_cons]
    cases ha : r.2.2 with
    | none => simpa [assembleRows, stdRowOf, ha] using ih
    | some s =>
      cases hp : parseDecimal s with
      | none => simpa [assembleRows, stdRowOf, ha, hp] using ih
      | some q => simpa [assembleRows, stdRowOf, ha, hp] using ih

/-- On a standard three-column CSV, normalize reduces to the two column
casts followed by reassembly: the missing-columns check, the rename,
the duplicate check and the column indices are all concrete. -/
theorem normalize_std_reduction (fn : String)
    (rs : List (Option String × Option String × Option String)) :
    normalize (mkStdCsv rs) fn .standard none =
      (match colMapM (castDateCell fn)
          ((rs.map (fun r => [r.1, r.2.1, r.2.2])).map (fun row => getCell row (some 0))) with
       | .error e => .error e
       | .ok dts =>
         match colMapM (castAmountCell fn)
            ((rs.map (fun r => [r.1, r.2.1, r.2.2])).map (fun row => getCell row (some 2))) with
         | .error e => .error e
         | .ok amts =>
           .ok (assembleRows (dts.zip (amts.zip
             (((rs.map (fun r => [r.1, r.2.1, r.2.2])).map (fun row => getCell row (some 1))).zip
               ((rs.map (fun r => [r.1, r.2.1, r.2.2])).map
                 (fun _ => (some "" : Option String)))))))) :=
  rfl

/-- C4 (amended): over any standard-format CSV whose dates the strict
datetime cast accepts, (i) when every Amount cell is null or numeric
text the file parses without error and exactly the null-amount rows are
dropped, silently — the caller sees only the surviving rows, and every
surviving row carries a numeric amount by construction; (ii) when some
Amount cell holds non-numeric text, the strict decimal cast fails the
whole file with an error instead of dropping the row. -/
theorem claim4_null_amount_dropped_nonnumeric_fails (fn : String)
    (rs : List (Option String × Option String × Option String))
    (hd : ∀ r ∈ rs, dateCellOk r.1 = true) :
    ((∀ r ∈ rs, amountCellOk r.2.2 = true) →
      normalize (mkStdCsv rs) fn .standard none = .ok (rs.filterMap stdRowOf)) ∧
    ((∃ r ∈ rs, amountCellOk r.2.2 = false) →
      normalize (mkStdCsv rs) fn .standard none = .error (amountCastError fn)) := by
  have hdates : colMapM (castDateCell fn)
      ((rs.map (fun r => [r.1, r.2.1, r.2.2])).map (fun row => getCell row (some 0))) =
      .ok (rs.map (fun r => r.1.bind parseDt)) := by
    rw [stdCsv_col_date]
    rw [colMapM_castDate_ok fn _ (by
      intro c hc
      obtain ⟨r, hr, hrc⟩ := List.mem_map.mp hc
      rw [← hrc]
      exact hd r hr)]
    rw [List.map_map]
    rfl
  constructor
  · intro ha
    have hamts : colMapM (castAmountCell fn)
        ((rs.map (fun r => [r.1, r.2.1, r.2.2])).map (fun row => getCell row (some 2))) =
        .ok (rs.map (fun r => r.2.2.bind parseDecimal)) := by
      rw [stdCsv_col_amount]
      rw [colMapM_castAmount_ok fn _ (by
        intro c hc
        obtain ⟨r, hr, hrc⟩ := List.mem_map.mp hc
        rw [← hrc]
        exact ha r hr)]
      rw [List.map_map]
      rfl
    rw [normalize_std_reduction]
    simp only [hdates, hamts, stdCsv_col_desc, stdCsv_col_tags]
    rw [assembleRows_std]
  · intro ha
    have hamts : colMapM (castAmountCell fn)
        ((rs.map (fun r => [r.1, r.2.1, r.2.2])).map (fun row => getCell row (some 2))) =
        .error (amountCastError fn) := by
      rw [stdCsv_col_amount]
      apply colMapM_castAmount_err
      obtain ⟨r, hr, hbad⟩ := ha
      exact ⟨r.2.2, List.mem_map.mpr ⟨r, hr, rfl⟩, hbad⟩
    rw [normalize_std_reduction]
    simp only [hdates, hamts]

/-- C4 witness: on a concrete standard CSV the row with a null Amount is
silently dropped while the file parses (one surviving row), and on a
concrete CSV with the non-numeric Amount "abc" the file fails. -/
theorem claim4_witness :
    normalize (mkStdCsv [(some "2024-01-05", some "Coffee", some "4.50"),
        (some "2024-01-06", some "Rent", none)]) "f.csv" .standard none =
      .ok [⟨some ⟨2024, 1, 5, 0, 0, 0⟩, some "Coffee", ⟨450, 2⟩, some ""⟩] ∧
    normalize (mkStdCsv [(some "2024-01-05", some "Coffee", some "abc")]) "f.csv" .standard none =
      .error (amountCastError "f.csv") := by
  constructor
  · exact (claim4_null_amount_dropped_nonnumeric_fails "f.csv"
      [(some "2024-01-05", some "Coffee", some "4.50"), (some "2024-01-06", some "Rent", none)]
      (by decide)).1 (by decide)
  · exact (claim4_null_amount_dropped_nonnumeric_fails "f.csv"
      [(some "2024-01-05", some "Coffee", some "abc")] (by decide)).2
      ⟨(some "2024-01-05", some "Coffee", some "abc"), List.mem_singleton.mpr rfl, by decide⟩

/-- C8 witness: a CSV missing both Description and Amount is rejected
with a message naming both, and the loop-continuation component at a
concrete batch. -/
theorem claim8_witness :
    normalize ⟨["Date"], []⟩ "f.csv" .standard none =
      .error "CSV is missing required columns: Description, Amount" ∧
    (uploadLoop (fun s => s) .standard none emptyState
        [(noAmountCsv, "c.csv"), (sampleCsv, "d.csv")]).statuses =
      (stepFile (fun s => s) .standard none emptyState noAmountCsv "c.csv").2.1 ::
        (uploadLoop (fun s => s) .standard none
          (stepFile (fun s => s) .standard none emptyState noAmountCsv "c.csv").1
          [(sampleCsv, "d.csv")]).statuses := by
  have h := claim8_missing_columns_all_named ⟨["Date"], []⟩ "f.csv" .standard none
    "Date" "Description" "Amount" rfl (by decide)
  exact ⟨h.1, h.2 (fun s => s) emptyState noAmountCsv "c.csv" [(sampleCsv, "d.csv")]⟩

/-! ## Cache coherence lemmas -/

theorem find?_key_none (l : List CacheEntry) (k : String) (h : ∀ e ∈ l, e.key ≠ k) :
    l.find? (fun e => e.key == k) = none := by
  induction l with
  | nil => rfl
  | cons e es ih =>
    have he : (e.key == k) = false := beq_eq_false_iff_ne.mpr (h e (List.mem_cons_self _ _))
    simp only [List.find?, he]
    exact ih (fun x hx => h x (List.mem_cons_of_mem _ hx))

theorem getCache_eq_none (cache : List CacheEntry) (k : String)
    (h : ∀ e ∈ cache, e.key ≠ k) : getCache cache k = none := by
  unfold getCache
  rw [find?_key_none cache k h]

theorem invalidate_tx_key_facts (c : List CacheEntry) (e : CacheEntry)
    (he : e ∈ invalidateCache c (some "transactions")) :
    e.key ≠ "transactions" ∧ strStartsWith e.key "transactions_sort_" = false := by
  have he2 : e ∈ (c.filter (fun x => !(x.key == "transactions"))).filter
      (fun x => !(strStartsWith x.key "transactions_sort_")) := he
  obtain ⟨h1, h2⟩ := List.mem_filter.mp he2
  obtain ⟨_, h3⟩ := List.mem_filter.mp h1
  simp only [Bool.not_eq_true'] at h2 h3
  exact ⟨beq_eq_false_iff_ne.mp h3, h2⟩

/-- After a transactions-cache invalidation, the base slot and every
sort-derived slot are gone. -/
def txCacheCleared (cache : List CacheEntry) : Prop :=
  getCache cache "transactions" = none ∧
  ∀ k, strStartsWith k "transactions_sort_" = true → getCache cache k = none

theorem invalidate_tx_cleared (c : List CacheEntry) :
    txCacheCleared (invalidateCache c (some "transactions")) := by
  constructor
  · exact getCache_eq_none _ _ (fun e he => (invalidate_tx_key_facts c e he).1)
  · intro k hk
    apply getCache_eq_none
    intro e he hek
    have h2 := (invalidate_tx_key_facts c e he).2
    rw [hek] at h2
    rw [h2] at hk
    exact Bool.false_ne_true hk

theorem data_append (a b : String) : (a ++ b).data = a.data ++ b.data := rfl

theorem isPrefixOf_self_append (p s : List Char) : p.isPrefixOf (p ++ s) = true := by
  induction p with
  | nil => simp [List.isPrefixOf]
  | cons c cs ih => simp [List.isPrefixOf, ih]

theorem mkSortKey_startsWith (sc : String) (asc : Bool) (t sOn : Option String) :
    strStartsWith (mkSortKey sc asc t sOn) "transactions_sort_" = true := by
  unfold strStartsWith mkSortKey
  simp only [data_append, List.append_assoc]
  exact isPrefixOf_self_append _ _

/-- A sorted read on this state recomputes from the database: for every
argument combination whose search arguments are usable (a truthy search
text comes with a valid search column), load_transactions_with_sort
returns exactly the freshly computed query over the state's database
rather than a cached value. -/
def freshSortedRead (st : State) (now : Nat) : Prop :=
  ∀ (sc : String) (asc : Bool) (t sOn : Option String),
    (pyTruthy t = true → ∃ c, sOn = some c ∧ validSearchCol c = true) →
    (load_transactions_with_sort st now sc asc t sOn).1 =
      .ok (queryTxSorted st.db sc asc t sOn)

theorem freshRead_of_cleared (st : State) (now : Nat) (h : txCacheCleared st.cache) :
    freshSortedRead st now := by
  intro sc asc t sOn hok
  have hnone := h.2 (mkSortKey sc asc t sOn) (mkSortKey_startsWith sc asc t sOn)
  have hkey : isCacheValid st.cache (mkSortKey sc asc t sOn) now = false := by
    unfold isCacheValid
    unfold getCache at hnone
    cases hf : st.cache.find? (fun e => e.key == mkSortKey sc asc t sOn) with
    | none => rfl
    | some e => rw [hf] at hnone; cases hnone
  cases hpt : pyTruthy t with
  | false => simp [load_transactions_with_sort, hkey, hpt]
  | true =>
    obtain ⟨c, hc, hvc⟩ := hok hpt
    subst hc
    simp [load_transactions_with_sort, hkey, hpt, hvc]

/-- C7: every write path to the transactions table — note update,
deletion, tag update, manual creation — removes both the base
'transactions' cache entry and every derived entry whose key carries
the 'transactions_sort_' prefix, and a sorted read issued on the
post-write state recomputes its result from the written database (no
stale cached value is served). The note-update conjunct additionally
exhibits the written database the fresh read observes. The import save
path performs no committed write at all (save_transactions raises
before any insert, see the C2 theorem), so no import write can leave a
stale entry either. -/
theorem claim7_writes_invalidate_and_recompute (st : State) (now : Nat) (tid : Nat)
    (note : String) (ids : List Nat) (dateS descS : String) (amt : Dec)
    (notes : Option String) :
    (txCacheCleared ((update_transaction_note st tid note).2).cache ∧
      freshSortedRead (update_transaction_note st tid note).2 now ∧
      ((update_transaction_note st tid note).2).db.transactions =
        st.db.transactions.map (fun t => if t.id == tid then { t with notes := some note } else t)) ∧
    (txCacheCleared ((delete_transactions st ids).2).cache ∧
      freshSortedRead (delete_transactions st ids).2 now) ∧
    ((update_transaction_tags st tid ids).1 = true →
      txCacheCleared ((update_transaction_tags st tid ids).2).cache ∧
      freshSortedRead (update_transaction_tags st tid ids).2 now) ∧
    ((create_manual_transaction st dateS descS amt notes ids).1.isSome = true →
      txCacheCleared ((create_manual_transaction st dateS descS amt notes ids).2).cache ∧
      freshSortedRead (create_manual_transaction st dateS descS amt notes ids).2 now) := by
  refine ⟨⟨invalidate_tx_cleared _, freshRead_of_cleared _ _ (invalidate_tx_cleared _), rfl⟩,
    ⟨invalidate_tx_cleared _, freshRead_of_cleared _ _ (invalidate_tx_cleared _)⟩, ?_, ?_⟩
  · intro hok
    unfold update_transaction_tags at hok ⊢
    cases h : insertTagsLoop (st.db.transactionTags.filter (fun p => !(p.1 == tid))) tid ids with
    | none =>
      rw [h] at hok
      exact (Bool.false_ne_true hok).elim
    | some tt =>
      exact ⟨invalidate_tx_cleared _, freshRead_of_cleared _ _ (invalidate_tx_cleared _)⟩
  · intro hok
    unfold create_manual_transaction at hok ⊢
    cases h : insertTagsLoop st.db.transactionTags st.db.nextTxnId ids with
    | none =>
      rw [h] at hok
      exact (Bool.false_ne_true hok).elim
    | some tt =>
      exact ⟨invalidate_tx_cleared _, freshRead_of_cleared _ _ (invalidate_tx_cleared _)⟩

/-! ## Deduplication lemmas -/

theorem any_eq_false_of_filter_nil {α} (p : α → Bool) (l : List α) (h : l.filter p = []) :
    l.any p = false := by
  cases ha : l.any p with
  | false => rfl
  | true =>
    obtain ⟨x, hx, hpx⟩ := List.any_eq_true.mp ha
    have hmem : x ∈ l.filter p := List.mem_filter.mpr ⟨hx, hpx⟩
    rw [h] at hmem
    exact absurd hmem (List.not_mem_nil x)

theorem any_eq_true_of_filter_length_one {α} (p : α → Bool) (l : List α)
    (h : (l.filter p).length = 1) : l.any p = true := by
  cases hf : l.filter p with
  | nil => rw [hf] at h; cases h
  | cons x xs =>
    have hx : x ∈ l.filter p := by rw [hf]; exact List.mem_cons_self _ _
    obtain ⟨hxl, hpx⟩ := List.mem_filter.mp hx
    exact List.any_eq_true.mpr ⟨x, hxl, hpx⟩

theorem filter_length_map_keysame {α} (p : α → Bool) (g : α → α) (l : List α)
    (hg : ∀ x, p (g x) = p x) :
    ((l.map g).filter p).length = (l.filter p).length := by
  induction l with
  | nil => rfl
  | cons x t ih =>
    rw [List.map_cons, List.filter_cons, List.filter_cons, hg]
    cases hx : p x with
    | true => simp [ih]
    | false => simp [ih]

theorem filter_sha_updateCount (l : List FileRec) (sha : String) (n : Nat) :
    ((l.map (fun f => if f.sha256 == sha then { f with transactionCount := n } else f)).filter
        (fun f => f.sha256 == sha)).length =
      (l.filter (fun f => f.sha256 == sha)).length := by
  apply filter_length_map_keysame
  intro x
  cases hx : x.sha256 == sha <;> simp [hx]

theorem filter_append_fresh (l : List FileRec) (rec : FileRec) (p : FileRec → Bool)
    (h : l.filter p = []) (hrec : p rec = true) : (l ++ [rec]).filter p = [rec] := by
  rw [List.filter_append, h]
  simp [hrec]

/-- When the fingerprint is already on record, one whole
process_uploaded_files call on that file is a pure skip: save_file_info
returns False without mutating anything, the loop parses nothing, and
the call returns the skip status with the state unchanged. -/
theorem dup_second_batch (hash : String → String) (st : State) (c n : String)
    (ft : FormatType) (d de a : Option String)
    (hany : st.db.uploadedFiles.any (fun f => f.sha256 == hash c) = true) :
    save_file_info st n (hash c) 0 = (false, st) ∧
    process_uploaded_files hash st [c] [n] ft d de a =
      ⟨st, .ok (none, [], ["⚠️ " ++ n ++ " was already uploaded and will be skipped"])⟩ ∧
    (uploadLoop hash ft (buildCustomColumns ft d de a) st [(c, n)]).dfs = [] := by
  have hsfi : save_file_info st n (hash c) 0 = (false, st) := by
    unfold save_file_info
    rw [hany]
    rfl
  refine ⟨hsfi, ?_, ?_⟩
  · simp [process_uploaded_files, uploadLoop, stepFile, hsfi]
  · simp [uploadLoop, stepFile, hsfi]

/-- C1: importing the same decoded content twice (any display names):
after the first call admits the file, exactly one UploadedFile record
carries its fingerprint; on the second call save_file_info returns
False on the duplicate fingerprint without mutating anything, the file
is skipped before parse_contents or save_transactions run (the loop
produces no dataframe and the call returns normally), the only status
reported is the already-uploaded skip, and the state after the second
call is exactly the state after the first. -/
theorem claim1_duplicate_content_skipped (hash : String → String) (st0 : State)
    (c1 c2 n1 n2 : String) (ft : FormatType) (d de a : Option String)
    (hc : c1 = c2)
    (hfresh : st0.db.uploadedFiles.filter (fun f => f.sha256 == hash c1) = []) :
    ((process_uploaded_files hash st0 [c1] [n1] ft d de a).st.db.uploadedFiles.filter
        (fun f => f.sha256 == hash c1)).length = 1 ∧
    save_file_info (process_uploaded_files hash st0 [c1] [n1] ft d de a).st n2 (hash c2) 0 =
      (false, (process_uploaded_files hash st0 [c1] [n1] ft d de a).st) ∧
    (process_uploaded_files hash (process_uploaded_files hash st0 [c1] [n1] ft d de a).st
        [c2] [n2] ft d de a).outcome =
      .ok (none, [], ["⚠️ " ++ n2 ++ " was already uploaded and will be skipped"]) ∧
    (process_uploaded_files hash (process_uploaded_files hash st0 [c1] [n1] ft d de a).st
        [c2] [n2] ft d de a).st = (process_uploaded_files hash st0 [c1] [n1] ft d de a).st ∧
    (uploadLoop hash ft (buildCustomColumns ft d de a)
        (process_uploaded_files hash st0 [c1] [n1] ft d de a).st [(c2, n2)]).dfs = [] := by
  subst hc
  have hany0 : st0.db.uploadedFiles.any (fun f => f.sha256 == hash c1) = false :=
    any_eq_false_of_filter_nil _ _ hfresh
  have hsfi : save_file_info st0 n1 (hash c1) 0 =
      (true, { st0 with
        db := { st0.db with uploadedFiles := st0.db.uploadedFiles ++ [⟨n1, hash c1, 0⟩] },
        cache := invalidateCache st0.cache (some "uploaded_files") }) := by
    unfold save_file_info
    rw [hany0]
    rfl
  have hrecfilter : (st0.db.uploadedFiles ++ ([⟨n1, hash c1, 0⟩] : List FileRec)).filter
      (fun f => f.sha256 == hash c1) = ([⟨n1, hash c1, 0⟩] : List FileRec) :=
    filter_append_fresh st0.db.uploadedFiles ⟨n1, hash c1, 0⟩
      (fun f => f.sha256 == hash c1) hfresh (by simp)
  have hlen1 : ((process_uploaded_files hash st0 [c1] [n1] ft d de a).st.db.uploadedFiles.filter
      (fun f => f.sha256 == hash c1)).length = 1 := by
    cases hp : parse_contents c1 n1 ft (buildCustomColumns ft d de a) with
    | ok df =>
      have hr1 : process_uploaded_files hash st0 [c1] [n1] ft d de a =
          ⟨updateTransactionCount
            { st0 with
              db := { st0.db with
                uploadedFiles := st0.db.uploadedFiles ++ [⟨n1, hash c1, 0⟩] },
              cache := invalidateCache st0.cache (some "uploaded_files") }
            (hash c1) df.length, .error pandasAttrError⟩ := by
        simp [process_uploaded_files, uploadLoop, stepFile, hsfi, hp, save_transactions]
      rw [hr1]
      unfold updateTransactionCount
      rw [filter_sha_updateCount]
      rw [hrecfilter]
      rfl
    | error e =>
      have hr1 : process_uploaded_files hash st0 [c1] [n1] ft d de a =
          ⟨{ st0 with
              db := { st0.db with
                uploadedFiles := st0.db.uploadedFiles ++ [⟨n1, hash c1, 0⟩] },
              cache := invalidateCache st0.cache (some "uploaded_files") },
            .ok (none, [], ["❌ " ++ n1 ++ ": " ++ e])⟩ := by
        simp [process_uploaded_files, uploadLoop, stepFile, hsfi, hp]
      rw [hr1]
      rw [hrecfilter]
      rfl
  have hany1 : (process_uploaded_files hash st0 [c1] [n1] ft d de a).st.db.uploadedFiles.any
      (fun f => f.sha256 == hash c1) = true :=
    any_eq_true_of_filter_length_one _ _ hlen1
  obtain ⟨hskip, hproc2, hdfs2⟩ :=
    dup_second_batch hash (process_uploaded_files hash st0 [c1] [n1] ft d de a).st
      c1 n2 ft d de a hany1
  exact ⟨hlen1, hskip, by rw [hproc2], by rw [hproc2], hdfs2⟩

/-- C1 witness: the two-call scenario at the concrete sample CSV with
two different display names, starting from the empty store. -/
theorem claim1_witness :
    ((process_uploaded_files (fun s => s) emptyState [sampleCsv] ["a.csv"] .standard
        none none none).st.db.uploadedFiles.filter
        (fun f => f.sha256 == sampleCsv)).length = 1 ∧
    (process_uploaded_files (fun s => s)
        (process_uploaded_files (fun s => s) emptyState [sampleCsv] ["a.csv"] .standard
          none none none).st [sampleCsv] ["b.csv"] .standard none none none).outcome =
      .ok (none, [], ["⚠️ b.csv was already uploaded and will be skipped"]) ∧
    (process_uploaded_files (fun s => s)
        (process_uploaded_files (fun s => s) emptyState [sampleCsv] ["a.csv"] .standard
          none none none).st [sampleCsv] ["b.csv"] .standard none none none).st =
      (process_uploaded_files (fun s => s) emptyState [sampleCsv] ["a.csv"] .standard
        none none none).st := by
  have h := claim1_duplicate_content_skipped (fun s => s) emptyState sampleCsv sampleCsv
    "a.csv" "b.csv" .standard none none none rfl rfl
  exact ⟨h.1, h.2.2.1, h.2.2.2.1⟩

/-- C7 witness: a concrete store holding a stale base entry and a stale
derived sort entry; after a note update both are gone and a sorted read
recomputes from the database. -/
theorem claim7_witness :
    getCache ((update_transaction_note
        ⟨⟨[], [], [⟨1, "2024-01-05 00:00:00", some "A", ⟨100, 0⟩, "manual_entry", none⟩], [], 2⟩,
          [⟨"transactions", 0, .txDf []⟩,
           ⟨"transactions_sort_date_True_None_None", 0, .sortDf []⟩]⟩ 1 "hi").2).cache
      "transactions" = none ∧
    getCache ((update_transaction_note
        ⟨⟨[], [], [⟨1, "2024-01-05 00:00:00", some "A", ⟨100, 0⟩, "manual_entry", none⟩], [], 2⟩,
          [⟨"transactions", 0, .txDf []⟩,
           ⟨"transactions_sort_date_True_None_None", 0, .sortDf []⟩]⟩ 1 "hi").2).cache
      "transactions_sort_date_True_None_None" = none ∧
    (load_transactions_with_sort (update_transaction_note
        ⟨⟨[], [], [⟨1, "2024-01-05 00:00:00", some "A", ⟨100, 0⟩, "manual_entry", none⟩], [], 2⟩,
          [⟨"transactions", 0, .txDf []⟩,
           ⟨"transactions_sort_date_True_None_None", 0, .sortDf []⟩]⟩ 1 "hi").2 0
        "date" true none none).1 =
      .ok (queryTxSorted ((update_transaction_note
        ⟨⟨[], [], [⟨1, "2024-01-05 00:00:00", some "A", ⟨100, 0⟩, "manual_entry", none⟩], [], 2⟩,
          [⟨"transactions", 0, .txDf []⟩,
           ⟨"transactions_sort_date_True_None_None", 0, .sortDf []⟩]⟩ 1 "hi").2).db
        "date" true none none) := by
  have h := claim7_writes_invalidate_and_recompute
    ⟨⟨[], [], [⟨1, "2024-01-05 00:00:00", some "A", ⟨100, 0⟩, "manual_entry", none⟩], [], 2⟩,
      [⟨"transactions", 0, .txDf []⟩,
       ⟨"transactions_sort_date_True_None_None", 0, .sortDf []⟩]⟩ 0 1 "hi" [] "" "" ⟨0, 0⟩ none
  exact ⟨h.1.1.1, h.1.1.2 "transactions_sort_date_True_None_None" rfl,
    h.1.2.1 "date" true none none (fun ht => (Bool.false_ne_true ht).elim)⟩

/-- C9 witness: one Groceries tag in the table, a cold cache, one
get_tags call, then the mapping call returns the empty dict although
the table is non-empty. -/
theorem claim9_witness :
    (get_tag_name_to_id_mapping
        (get_tags ⟨⟨[⟨1, "Groceries", "d", "c"⟩], [], [], [], 1⟩, []⟩ 0).2 0).1 = [] ∧
    ([⟨1, "Groceries", "d", "c"⟩] : List Tag) ≠ [] := by
  have h := claim9_tag_mapping_reads_wrong_key
    ⟨[⟨1, "Groceries", "d", "c"⟩], [], [], [], 1⟩ 0 (by decide)
  exact ⟨h.1, h.2.2.2.2⟩

end HouseMoney
